import Mathlib

/-!
Verification of the humlex gateway core against its specification.

The Rust sources under src/gateway/src are shallowly embedded: serde_json
values become the inductive `Json` (numbers restricted to the u64-representable
naturals, which is all the verified claims use), strings stay `String`,
fallible functions return `Except GatewayError`, and the two streaming state
machines become explicit folds over the list of SSE lines they consume.
-/

namespace Humlex

/-! ## JSON value model (serde_json::Value) -/

inductive Json where
  | null
  | bool (b : Bool)
  | num (n : Nat)
  | str (s : String)
  | arr (items : List Json)
  | obj (fields : List (String × Json))

/-- Association-list lookup used by `Json.get`; serde_json object maps have
unique keys, and lookup returns the value of the first matching key. -/
def assocFind : List (String × Json) → String → Option Json
  | [], _ => none
  | (k, v) :: rest, key => if k = key then some v else assocFind rest key

/-- Value::get(key) on an object; None on every other shape. -/
def Json.get : Json → String → Option Json
  | .obj fields, key => assocFind fields key
  | _, _ => none

/-- Value::as_str. -/
def Json.asStr : Json → Option String
  | .str s => some s
  | _ => none

/-- Value::as_u64. -/
def Json.asU64 : Json → Option Nat
  | .num n => some n
  | _ => none

/-- Value::as_f64; on this model's (integral) numbers it accepts exactly the
same values as `asU64`. -/
def Json.asF64 : Json → Option Nat
  | .num n => some n
  | _ => none

/-- Value::as_array. -/
def Json.asArray : Json → Option (List Json)
  | .arr items => some items
  | _ => none

/-- Value::as_bool. -/
def Json.asBool : Json → Option Bool
  | .bool b => some b
  | _ => none

/-- Value::is_null. -/
def Json.isNull : Json → Bool
  | .null => true
  | _ => false

/-- Whether the value is an object. -/
def Json.isObj : Json → Bool
  | .obj _ => true
  | _ => false

/-- Replace the value of `key` (first occurrence) or append it: the effect of
serde_json's `value[key] = v` on an object map. -/
def setField : List (String × Json) → String → Json → List (String × Json)
  | [], key, v => [(key, v)]
  | (k, w) :: rest, key, v =>
    if k = key then (k, v) :: rest else (k, w) :: setField rest key v

/-- `value[key] = v` (serde_json index assignment); on non-objects the source
would abort, but that case is unreachable in the embedded code, which only
assigns into objects it just built. -/
def Json.setKey : Json → String → Json → Json
  | .obj fields, key, v => .obj (setField fields key v)
  | j, _, _ => j

/-- Models `if let Some(value) = payload.get(key) { request[key] = value }`. -/
def set_if_present (request : Json) (key : String) (valueOpt : Option Json) : Json :=
  match valueOpt with
  | some value => request.setKey key value
  | none => request

/-! ## Error model (src/gateway/src/error.rs) -/

inductive GatewayError where
  | unauthorized (message : String)
  | badRequest (message : String)
  | upstream (status : Nat) (body : String)
  | transport
  | internal (message : String)
deriving DecidableEq

/-! ## Provider registry and router (src/gateway/src/providers/registry.rs) -/

inductive ProviderKind where
  | openAi
  | anthropic
  | gemini
  | kimi
  | openRouter
  | vercelAiGateway
  | groq
  | deepSeek
  | xAi
  | mistral
  | cohere
  | azureOpenAi
  | awsBedrock
  | vertexAi
deriving DecidableEq

/-- ProviderKind::id. -/
def ProviderKind.id : ProviderKind → String
  | .openAi => "openai"
  | .anthropic => "anthropic"
  | .gemini => "gemini"
  | .kimi => "kimi"
  | .openRouter => "openrouter"
  | .vercelAiGateway => "vercel"
  | .groq => "groq"
  | .deepSeek => "deepseek"
  | .xAi => "xai"
  | .mistral => "mistral"
  | .cohere => "cohere"
  | .azureOpenAi => "azure"
  | .awsBedrock => "bedrock"
  | .vertexAi => "vertex"

/-- Character-list test that `p` starts `s`; the Bool form of Rust's
`str::starts_with` / the test performed by `str::strip_prefix`. -/
def listPfx : List Char → List Char → Bool
  | [], _ => true
  | _ :: _, [] => false
  | c :: p, d :: s => c = d && listPfx p s

/-- `model.starts_with(pat)`. -/
def strHasPfx (s pat : String) : Bool :=
  listPfx pat.data s.data

/-- Drop the first `n` characters: the remainder returned by
`str::strip_prefix` once the prefix test succeeded. -/
def strDrop (s : String) (n : Nat) : String :=
  ⟨s.data.drop n⟩

/-- Rust `u8::to_ascii_lowercase`, per character. -/
def asciiLower (c : Char) : Char :=
  if 'A' ≤ c ∧ c ≤ 'Z' then Char.ofNat (c.toNat + 32) else c

/-- `str::to_ascii_lowercase`. -/
def asciiLowerStr (s : String) : String :=
  ⟨s.data.map asciiLower⟩

/-- ProviderKind::resolve_model: strip a known `provider/` prefix, else apply
the case-insensitive bare-name heuristics, else default to openai. -/
def resolve_model (model : String) : ProviderKind × String :=
  if strHasPfx model "openai/" then (.openAi, strDrop model 7)
  else if strHasPfx model "anthropic/" then (.anthropic, strDrop model 10)
  else if strHasPfx model "gemini/" then (.gemini, strDrop model 7)
  else if strHasPfx model "kimi/" then (.kimi, strDrop model 5)
  else if strHasPfx model "openrouter/" then (.openRouter, strDrop model 11)
  else if strHasPfx model "vercel/" then (.vercelAiGateway, strDrop model 7)
  else if strHasPfx model "groq/" then (.groq, strDrop model 5)
  else if strHasPfx model "deepseek/" then (.deepSeek, strDrop model 9)
  else if strHasPfx model "xai/" then (.xAi, strDrop model 4)
  else if strHasPfx model "mistral/" then (.mistral, strDrop model 8)
  else if strHasPfx model "cohere/" then (.cohere, strDrop model 7)
  else if strHasPfx model "azure/" then (.azureOpenAi, strDrop model 6)
  else if strHasPfx model "bedrock/" then (.awsBedrock, strDrop model 8)
  else if strHasPfx model "vertex/" then (.vertexAi, strDrop model 7)
  else
    let lower := asciiLowerStr model
    if strHasPfx lower "claude" then (.anthropic, model)
    else if strHasPfx lower "gemini" then (.gemini, model)
    else if strHasPfx lower "kimi" then (.kimi, model)
    else if strHasPfx lower "deepseek" then (.deepSeek, model)
    else if strHasPfx lower "grok" then (.xAi, model)
    else if strHasPfx lower "mistral" || strHasPfx lower "ministral"
        || strHasPfx lower "codestral" then (.mistral, model)
    else if strHasPfx lower "command" then (.cohere, model)
    else (.openAi, model)

/-- True when none of the fourteen known `provider/` prefixes starts `s`. -/
def noKnownPfx (s : String) : Bool :=
  !(strHasPfx s "openai/") && !(strHasPfx s "anthropic/") && !(strHasPfx s "gemini/")
    && !(strHasPfx s "kimi/") && !(strHasPfx s "openrouter/") && !(strHasPfx s "vercel/")
    && !(strHasPfx s "groq/") && !(strHasPfx s "deepseek/") && !(strHasPfx s "xai/")
    && !(strHasPfx s "mistral/") && !(strHasPfx s "cohere/") && !(strHasPfx s "azure/")
    && !(strHasPfx s "bedrock/") && !(strHasPfx s "vertex/")

/-- Spec wording of the bare-model heuristic (section 4.D step 2 and 3): for a
model without a known prefix, lowercase and test the heuristic name prefixes,
returning the original model string; default to openai. -/
def heuristicRoute (model : String) : ProviderKind × String :=
  let lower := asciiLowerStr model
  if strHasPfx lower "claude" then (.anthropic, model)
  else if strHasPfx lower "gemini" then (.gemini, model)
  else if strHasPfx lower "kimi" then (.kimi, model)
  else if strHasPfx lower "deepseek" then (.deepSeek, model)
  else if strHasPfx lower "grok" then (.xAi, model)
  else if strHasPfx lower "mistral" || strHasPfx lower "ministral"
      || strHasPfx lower "codestral" then (.mistral, model)
  else if strHasPfx lower "command" then (.cohere, model)
  else (.openAi, model)

/-! ### List-prefix lemmas -/

theorem strData_append (a b : String) : (a ++ b).data = a.data ++ b.data := rfl

theorem listPfx_append_self (a r : List Char) : listPfx a (a ++ r) = true := by
  induction a with
  | nil => rfl
  | cons c p ih => simp [listPfx, ih]

theorem listPfx_append_false (p a r : List Char)
    (h1 : listPfx p a = false) (h2 : listPfx a p = false) :
    listPfx p (a ++ r) = false := by
  induction p generalizing a with
  | nil => simp [listPfx] at h1
  | cons c p ih =>
    cases a with
    | nil => simp [listPfx] at h2
    | cons d a' =>
      simp only [List.cons_append, listPfx, Bool.and_eq_false_iff] at h1 h2 ⊢
      rcases h1 with h1 | h1
      · left; exact h1
      · rcases h2 with h2 | h2
        · left
          simp only [decide_eq_false_iff_not] at h1 h2 ⊢
          exact fun hc => h2 hc.symm
        · right; exact ih a' h1 h2

theorem strHasPfx_append_self (a r : String) : strHasPfx (a ++ r) a = true := by
  unfold strHasPfx
  rw [strData_append]
  exact listPfx_append_self a.data r.data

theorem strHasPfx_append_false (a r p : String)
    (h1 : listPfx p.data a.data = false) (h2 : listPfx a.data p.data = false) :
    strHasPfx (a ++ r) p = false := by
  unfold strHasPfx
  rw [strData_append]
  exact listPfx_append_false p.data a.data r.data h1 h2

theorem drop_len_append (a b : List Char) : (a ++ b).drop a.length = b := by
  induction a with
  | nil => rfl
  | cons c p ih => simp [ih]

theorem strDrop_append (a r : String) (n : Nat) (h : a.data.length = n) :
    strDrop (a ++ r) n = r := by
  unfold strDrop
  rw [strData_append, ← h, drop_len_append]

/-- C5: stripping a known provider prefix returns that provider and the
remainder unchanged. -/
theorem c5_known_prefix_routing (k : ProviderKind) (rest : String) :
    resolve_model (k.id ++ "/" ++ rest) = (k, rest) := by
  cases k
  case openAi =>
    rw [show ProviderKind.id ProviderKind.openAi ++ "/" ++ rest = "openai/" ++ rest from rfl]
    unfold resolve_model
    rw [strHasPfx_append_self,
        strDrop_append "openai/" rest 7 (by decide)]
    simp
  case anthropic =>
    rw [show ProviderKind.id ProviderKind.anthropic ++ "/" ++ rest = "anthropic/" ++ rest from rfl]
    unfold resolve_model
    rw [strHasPfx_append_false "anthropic/" rest "openai/" (by decide) (by decide),
        strHasPfx_append_self,
        strDrop_append "anthropic/" rest 10 (by decide)]
    simp
  case gemini =>
    rw [show ProviderKind.id ProviderKind.gemini ++ "/" ++ rest = "gemini/" ++ rest from rfl]
    unfold resolve_model
    rw [strHasPfx_append_false "gemini/" rest "openai/" (by decide) (by decide),
        strHasPfx_append_false "gemini/" rest "anthropic/" (by decide) (by decide),
        strHasPfx_append_self,
        strDrop_append "gemini/" rest 7 (by decide)]
    simp
  case kimi =>
    rw [show ProviderKind.id ProviderKind.kimi ++ "/" ++ rest = "kimi/" ++ rest from rfl]
    unfold resolve_model
    rw [strHasPfx_append_false "kimi/" rest "openai/" (by decide) (by decide),
        strHasPfx_append_false "kimi/" rest "anthropic/" (by decide) (by decide),
        strHasPfx_append_false "kimi/" rest "gemini/" (by decide) (by decide),
        strHasPfx_append_self,
        strDrop_append "kimi/" rest 5 (by decide)]
    simp
  case openRouter =>
    rw [show ProviderKind.id ProviderKind.openRouter ++ "/" ++ rest = "openrouter/" ++ rest from rfl]
    unfold resolve_model
    rw [strHasPfx_append_false "openrouter/" rest "openai/" (by decide) (by decide),
        strHasPfx_append_false "openrouter/" rest "anthropic/" (by decide) (by decide),
        strHasPfx_append_false "openrouter/" rest "gemini/" (by decide) (by decide),
        strHasPfx_append_false "openrouter/" rest "kimi/" (by decide) (by decide),
        strHasPfx_append_self,
        strDrop_append "openrouter/" rest 11 (by decide)]
    simp
  case vercelAiGateway =>
    rw [show ProviderKind.id ProviderKind.vercelAiGateway ++ "/" ++ rest = "vercel/" ++ rest from rfl]
    unfold resolve_model
    rw [strHasPfx_append_false "vercel/" rest "openai/" (by decide) (by decide),
        strHasPfx_append_false "vercel/" rest "anthropic/" (by decide) (by decide),
        strHasPfx_append_false "vercel/" rest "gemini/" (by decide) (by decide),
        strHasPfx_append_false "vercel/" rest "kimi/" (by decide) (by decide),
        strHasPfx_append_false "vercel/" rest "openrouter/" (by decide) (by decide),
        strHasPfx_append_self,
        strDrop_append "vercel/" rest 7 (by decide)]
    simp
  case groq =>
    rw [show ProviderKind.id ProviderKind.groq ++ "/" ++ rest = "groq/" ++ rest from rfl]
    unfold resolve_model
    rw [strHasPfx_append_false "groq/" rest "openai/" (by decide) (by decide),
        strHasPfx_append_false "groq/" rest "anthropic/" (by decide) (by decide),
        strHasPfx_append_false "groq/" rest "gemini/" (by decide) (by decide),
        strHasPfx_append_false "groq/" rest "kimi/" (by decide) (by decide),
        strHasPfx_append_false "groq/" rest "openrouter/" (by decide) (by decide),
        strHasPfx_append_false "groq/" rest "vercel/" (by decide) (by decide),
        strHasPfx_append_self,
        strDrop_append "groq/" rest 5 (by decide)]
    simp
  case deepSeek =>
    rw [show ProviderKind.id ProviderKind.deepSeek ++ "/" ++ rest = "deepseek/" ++ rest from rfl]
    unfold resolve_model
    rw [strHasPfx_append_false "deepseek/" rest "openai/" (by decide) (by decide),
        strHasPfx_append_false "deepseek/" rest "anthropic/" (by decide) (by decide),
        strHasPfx_append_false "deepseek/" rest "gemini/" (by decide) (by decide),
        strHasPfx_append_false "deepseek/" rest "kimi/" (by decide) (by decide),
        strHasPfx_append_false "deepseek/" rest "openrouter/" (by decide) (by decide),
        strHasPfx_append_false "deepseek/" rest "vercel/" (by decide) (by decide),
        strHasPfx_append_false "deepseek/" rest "groq/" (by decide) (by decide),
        strHasPfx_append_self,
        strDrop_append "deepseek/" rest 9 (by decide)]
    simp
  case xAi =>
    rw [show ProviderKind.id ProviderKind.xAi ++ "/" ++ rest = "xai/" ++ rest from rfl]
    unfold resolve_model
    rw [strHasPfx_append_false "xai/" rest "openai/" (by decide) (by decide),
        strHasPfx_append_false "xai/" rest "anthropic/" (by decide) (by decide),
        strHasPfx_append_false "xai/" rest "gemini/" (by decide) (by decide),
        strHasPfx_append_false "xai/" rest "kimi/" (by decide) (by decide),
        strHasPfx_append_false "xai/" rest "openrouter/" (by decide) (by decide),
        strHasPfx_append_false "xai/" rest "vercel/" (by decide) (by decide),
        strHasPfx_append_false "xai/" rest "groq/" (by decide) (by decide),
        strHasPfx_append_false "xai/" rest "deepseek/" (by decide) (by decide),
        strHasPfx_append_self,
        strDrop_append "xai/" rest 4 (by decide)]
    simp
  case mistral =>
    rw [show ProviderKind.id ProviderKind.mistral ++ "/" ++ rest = "mistral/" ++ rest from rfl]
    unfold resolve_model
    rw [strHasPfx_append_false "mistral/" rest "openai/" (by decide) (by decide),
        strHasPfx_append_false "mistral/" rest "anthropic/" (by decide) (by decide),
        strHasPfx_append_false "mistral/" rest "gemini/" (by decide) (by decide),
        strHasPfx_append_false "mistral/" rest "kimi/" (by decide) (by decide),
        strHasPfx_append_false "mistral/" rest "openrouter/" (by decide) (by decide),
        strHasPfx_append_false "mistral/" rest "vercel/" (by decide) (by decide),
        strHasPfx_append_false "mistral/" rest "groq/" (by decide) (by decide),
        strHasPfx_append_false "mistral/" rest "deepseek/" (by decide) (by decide),
        strHasPfx_append_false "mistral/" rest "xai/" (by decide) (by decide),
        strHasPfx_append_self,
        strDrop_append "mistral/" rest 8 (by decide)]
    simp
  case cohere =>
    rw [show ProviderKind.id ProviderKind.cohere ++ "/" ++ rest = "cohere/" ++ rest from rfl]
    unfold resolve_model
    rw [strHasPfx_append_false "cohere/" rest "openai/" (by decide) (by decide),
        strHasPfx_append_false "cohere/" rest "anthropic/" (by decide) (by decide),
        strHasPfx_append_false "cohere/" rest "gemini/" (by decide) (by decide),
        strHasPfx_append_false "cohere/" rest "kimi/" (by decide) (by decide),
        strHasPfx_append_false "cohere/" rest "openrouter/" (by decide) (by decide),
        strHasPfx_append_false "cohere/" rest "vercel/" (by decide) (by decide),
        strHasPfx_append_false "cohere/" rest "groq/" (by decide) (by decide),
        strHasPfx_append_false "cohere/" rest "deepseek/" (by decide) (by decide),
        strHasPfx_append_false "cohere/" rest "xai/" (by decide) (by decide),
        strHasPfx_append_false "cohere/" rest "mistral/" (by decide) (by decide),
        strHasPfx_append_self,
        strDrop_append "cohere/" rest 7 (by decide)]
    simp
  case azureOpenAi =>
    rw [show ProviderKind.id ProviderKind.azureOpenAi ++ "/" ++ rest = "azure/" ++ rest from rfl]
    unfold resolve_model
    rw [strHasPfx_append_false "azure/" rest "openai/" (by decide) (by decide),
        strHasPfx_append_false "azure/" rest "anthropic/" (by decide) (by decide),
        strHasPfx_append_false "azure/" rest "gemini/" (by decide) (by decide),
        strHasPfx_append_false "azure/" rest "kimi/" (by decide) (by decide),
        strHasPfx_append_false "azure/" rest "openrouter/" (by decide) (by decide),
        strHasPfx_append_false "azure/" rest "vercel/" (by decide) (by decide),
        strHasPfx_append_false "azure/" rest "groq/" (by decide) (by decide),
        strHasPfx_append_false "azure/" rest "deepseek/" (by decide) (by decide),
        strHasPfx_append_false "azure/" rest "xai/" (by decide) (by decide),
        strHasPfx_append_false "azure/" rest "mistral/" (by decide) (by decide),
        strHasPfx_append_false "azure/" rest "cohere/" (by decide) (by decide),
        strHasPfx_append_self,
        strDrop_append "azure/" rest 6 (by decide)]
    simp
  case awsBedrock =>
    rw [show ProviderKind.id ProviderKind.awsBedrock ++ "/" ++ rest = "bedrock/" ++ rest from rfl]
    unfold resolve_model
    rw [strHasPfx_append_false "bedrock/" rest "openai/" (by decide) (by decide),
        strHasPfx_append_false "bedrock/" rest "anthropic/" (by decide) (by decide),
        strHasPfx_append_false "bedrock/" rest "gemini/" (by decide) (by decide),
        strHasPfx_append_false "bedrock/" rest "kimi/" (by decide) (by decide),
        strHasPfx_append_false "bedrock/" rest "openrouter/" (by decide) (by decide),
        strHasPfx_append_false "bedrock/" rest "vercel/" (by decide) (by decide),
        strHasPfx_append_false "bedrock/" rest "groq/" (by decide) (by decide),
        strHasPfx_append_false "bedrock/" rest "deepseek/" (by decide) (by decide),
        strHasPfx_append_false "bedrock/" rest "xai/" (by decide) (by decide),
        strHasPfx_append_false "bedrock/" rest "mistral/" (by decide) (by decide),
        strHasPfx_append_false "bedrock/" rest "cohere/" (by decide) (by decide),
        strHasPfx_append_false "bedrock/" rest "azure/" (by decide) (by decide),
        strHasPfx_append_self,
        strDrop_append "bedrock/" rest 8 (by decide)]
    simp
  case vertexAi =>
    rw [show ProviderKind.id ProviderKind.vertexAi ++ "/" ++ rest = "vertex/" ++ rest from rfl]
    unfold resolve_model
    rw [strHasPfx_append_false "vertex/" rest "openai/" (by decide) (by decide),
        strHasPfx_append_false "vertex/" rest "anthropic/" (by decide) (by decide),
        strHasPfx_append_false "vertex/" rest "gemini/" (by decide) (by decide),
        strHasPfx_append_false "vertex/" rest "kimi/" (by decide) (by decide),
        strHasPfx_append_false "vertex/" rest "openrouter/" (by decide) (by decide),
        strHasPfx_append_false "vertex/" rest "vercel/" (by decide) (by decide),
        strHasPfx_append_false "vertex/" rest "groq/" (by decide) (by decide),
        strHasPfx_append_false "vertex/" rest "deepseek/" (by decide) (by decide),
        strHasPfx_append_false "vertex/" rest "xai/" (by decide) (by decide),
        strHasPfx_append_false "vertex/" rest "mistral/" (by decide) (by decide),
        strHasPfx_append_false "vertex/" rest "cohere/" (by decide) (by decide),
        strHasPfx_append_false "vertex/" rest "azure/" (by decide) (by decide),
        strHasPfx_append_false "vertex/" rest "bedrock/" (by decide) (by decide),
        strHasPfx_append_self,
        strDrop_append "vertex/" rest 7 (by decide)]
    simp


theorem strEq_of_data (a b : String) (h : a.data = b.data) : a = b := by
  cases a; cases b; cases h; rfl

theorem listPfx_decomp (p s : List Char) (h : listPfx p s = true) :
    s = p ++ s.drop p.length := by
  induction p generalizing s with
  | nil => simp
  | cons c p ih =>
    cases s with
    | nil => simp [listPfx] at h
    | cons d s2 =>
      simp only [listPfx, Bool.and_eq_true, decide_eq_true_eq] at h
      obtain ⟨hc, hp⟩ := h
      simp only [List.length_cons, List.drop_succ_cons, List.cons_append, hc]
      exact congrArg (d :: ·) (ih s2 hp)

theorem strHasPfx_decomp (s p : String) (n : Nat) (hn : p.data.length = n)
    (h : strHasPfx s p = true) : s = p ++ strDrop s n := by
  apply strEq_of_data
  rw [strData_append]
  unfold strHasPfx at h
  have hd := listPfx_decomp p.data s.data h
  rw [hn] at hd
  exact hd

/-- C6: when no known `provider/` prefix matches, resolve_model behaves exactly
as the spec heuristic routing: a case-insensitive name-prefix match returns
that provider with the original model string, and otherwise openai. -/
theorem c6_heuristic_routing (model : String) (h : noKnownPfx model = true) :
    resolve_model model = heuristicRoute model := by
  simp only [noKnownPfx, Bool.and_eq_true, Bool.not_eq_true'] at h
  obtain ⟨⟨⟨⟨⟨⟨⟨⟨⟨⟨⟨⟨⟨h1, h2⟩, h3⟩, h4⟩, h5⟩, h6⟩, h7⟩, h8⟩, h9⟩, h10⟩, h11⟩, h12⟩, h13⟩, h14⟩ := h
  unfold resolve_model heuristicRoute
  rw [h1, h2, h3, h4, h5, h6, h7, h8, h9, h10, h11, h12, h13, h14]
  simp only [Bool.false_eq_true, if_false]

/-- C6 witness: the bare claude model resolves through the heuristic. -/
theorem c6_heuristic_routing_witness :
    resolve_model "claude-3-opus" = heuristicRoute "claude-3-opus" :=
  c6_heuristic_routing "claude-3-opus" (by decide)

theorem c9_case (model : String) (k : ProviderKind) (n : Nat)
    (hlen : (k.id ++ "/").data.length = n)
    (hpfx : strHasPfx model (k.id ++ "/") = true)
    (hres : resolve_model model = (k, strDrop model n)) :
    noKnownPfx (resolve_model model).2 = true ∨
      ∃ k2 : ProviderKind, ∃ rest : String,
        model = k2.id ++ "/" ++ rest ∧ noKnownPfx rest = false := by
  have hm : model = (k.id ++ "/") ++ strDrop model n :=
    strHasPfx_decomp model (k.id ++ "/") n hlen hpfx
  cases hk : noKnownPfx (strDrop model n) with
  | false => exact Or.inr ⟨k, strDrop model n, hm, hk⟩
  | true =>
    left
    rw [hres]
    exact hk

/-- C9 (amended): the upstream model returned by the router carries no known
`provider/` prefix, except when the client model string itself stacked a
second known prefix under the first; exactly one prefix is stripped. -/
theorem c9_single_strip (model : String) :
    noKnownPfx (resolve_model model).2 = true ∨
      ∃ k2 : ProviderKind, ∃ rest : String,
        model = k2.id ++ "/" ++ rest ∧ noKnownPfx rest = false := by
  cases h1 : strHasPfx model "openai/"
  case true =>
    exact c9_case model ProviderKind.openAi 7 (by decide)
      (by rw [show ProviderKind.id ProviderKind.openAi ++ "/" = "openai/" from rfl]; exact h1)
      (by unfold resolve_model; rw [h1]; simp)
  cases h2 : strHasPfx model "anthropic/"
  case true =>
    exact c9_case model ProviderKind.anthropic 10 (by decide)
      (by rw [show ProviderKind.id ProviderKind.anthropic ++ "/" = "anthropic/" from rfl]; exact h2)
      (by unfold resolve_model; rw [h1, h2]; simp)
  cases h3 : strHasPfx model "gemini/"
  case true =>
    exact c9_case model ProviderKind.gemini 7 (by decide)
      (by rw [show ProviderKind.id ProviderKind.gemini ++ "/" = "gemini/" from rfl]; exact h3)
      (by unfold resolve_model; rw [h1, h2, h3]; simp)
  cases h4 : strHasPfx model "kimi/"
  case true =>
    exact c9_case model ProviderKind.kimi 5 (by decide)
      (by rw [show ProviderKind.id ProviderKind.kimi ++ "/" = "kimi/" from rfl]; exact h4)
      (by unfold resolve_model; rw [h1, h2, h3, h4]; simp)
  cases h5 : strHasPfx model "openrouter/"
  case true =>
    exact c9_case model ProviderKind.openRouter 11 (by decide)
      (by rw [show ProviderKind.id ProviderKind.openRouter ++ "/" = "openrouter/" from rfl]; exact h5)
      (by unfold resolve_model; rw [h1, h2, h3, h4, h5]; simp)
  cases h6 : strHasPfx model "vercel/"
  case true =>
    exact c9_case model ProviderKind.vercelAiGateway 7 (by decide)
      (by rw [show ProviderKind.id ProviderKind.vercelAiGateway ++ "/" = "vercel/" from rfl]; exact h6)
      (by unfold resolve_model; rw [h1, h2, h3, h4, h5, h6]; simp)
  cases h7 : strHasPfx model "groq/"
  case true =>
    exact c9_case model ProviderKind.groq 5 (by decide)
      (by rw [show ProviderKind.id ProviderKind.groq ++ "/" = "groq/" from rfl]; exact h7)
      (by unfold resolve_model; rw [h1, h2, h3, h4, h5, h6, h7]; simp)
  cases h8 : strHasPfx model "deepseek/"
  case true =>
    exact c9_case model ProviderKind.deepSeek 9 (by decide)
      (by rw [show ProviderKind.id ProviderKind.deepSeek ++ "/" = "deepseek/" from rfl]; exact h8)
      (by unfold resolve_model; rw [h1, h2, h3, h4, h5, h6, h7, h8]; simp)
  cases h9 : strHasPfx model "xai/"
  case true =>
    exact c9_case model ProviderKind.xAi 4 (by decide)
      (by rw [show ProviderKind.id ProviderKind.xAi ++ "/" = "xai/" from rfl]; exact h9)
      (by unfold resolve_model; rw [h1, h2, h3, h4, h5, h6, h7, h8, h9]; simp)
  cases h10 : strHasPfx model "mistral/"
  case true =>
    exact c9_case model ProviderKind.mistral 8 (by decide)
      (by rw [show ProviderKind.id ProviderKind.mistral ++ "/" = "mistral/" from rfl]; exact h10)
      (by unfold resolve_model; rw [h1, h2, h3, h4, h5, h6, h7, h8, h9, h10]; simp)
  cases h11 : strHasPfx model "cohere/"
  case true =>
    exact c9_case model ProviderKind.cohere 7 (by decide)
      (by rw [show ProviderKind.id ProviderKind.cohere ++ "/" = "cohere/" from rfl]; exact h11)
      (by unfold resolve_model; rw [h1, h2, h3, h4, h5, h6, h7, h8, h9, h10, h11]; simp)
  cases h12 : strHasPfx model "azure/"
  case true =>
    exact c9_case model ProviderKind.azureOpenAi 6 (by decide)
      (by rw [show ProviderKind.id ProviderKind.azureOpenAi ++ "/" = "azure/" from rfl]; exact h12)
      (by unfold resolve_model; rw [h1, h2, h3, h4, h5, h6, h7, h8, h9, h10, h11, h12]; simp)
  cases h13 : strHasPfx model "bedrock/"
  case true =>
    exact c9_case model ProviderKind.awsBedrock 8 (by decide)
      (by rw [show ProviderKind.id ProviderKind.awsBedrock ++ "/" = "bedrock/" from rfl]; exact h13)
      (by unfold resolve_model; rw [h1, h2, h3, h4, h5, h6, h7, h8, h9, h10, h11, h12, h13]; simp)
  cases h14 : strHasPfx model "vertex/"
  case true =>
    exact c9_case model ProviderKind.vertexAi 7 (by decide)
      (by rw [show ProviderKind.id ProviderKind.vertexAi ++ "/" = "vertex/" from rfl]; exact h14)
      (by unfold resolve_model; rw [h1, h2, h3, h4, h5, h6, h7, h8, h9, h10, h11, h12, h13, h14]; simp)
  left
  have hsnd : (resolve_model model).2 = model := by
    unfold resolve_model
    rw [h1, h2, h3, h4, h5, h6, h7, h8, h9, h10, h11, h12, h13, h14]
    simp only [Bool.false_eq_true, if_false]
    repeat' split
    all_goals rfl
  rw [hsnd]
  simp [noKnownPfx, h1, h2, h3, h4, h5, h6, h7, h8, h9, h10, h11, h12, h13, h14]


/-- C9 counterexample: a model string with two stacked provider prefixes is
stripped only once, so the returned upstream model still starts with a known
provider prefix, contradicting the claimed invariant. -/
theorem c9_counterexample :
    (resolve_model "openai/openai/gpt-4").2 = "openai/gpt-4" ∧
      strHasPfx (resolve_model "openai/openai/gpt-4").2 "openai/" = true := by
  constructor
  · decide
  · decide

/-! ## Retry dispatcher (src/gateway/src/sdk/retry.rs) -/

structure RetryPolicy where
  max_retries : Nat
  base_delay_ms : Nat
deriving DecidableEq

/-- One attempt as observed by send_with_retry: either a response carrying a
status code, or a reqwest error whose retryability (is_timeout, is_connect or
is_request) is recorded as a flag. -/
inductive SendOutcome where
  | response (status : Nat)
  | transportError (retryable : Bool)
deriving DecidableEq

/-- should_retry_status: 429, 500, 502, 503 or 504. -/
def should_retry_status (status : Nat) : Bool :=
  status == 429 || status == 500 || status == 502 || status == 503 || status == 504

/-- The retry test the loop applies to an attempt: should_retry_status on an
Ok(response), should_retry_error on an Err. -/
def should_retry_outcome : SendOutcome → Bool
  | .response status => should_retry_status status
  | .transportError retryable => retryable

def u64Max : Nat := 2 ^ 64 - 1

/-- u64::saturating_mul on naturals below 2^64. -/
def saturatingMulU64 (a b : Nat) : Nat := min (a * b) u64Max

/-- delay_for_attempt: base_delay_ms saturating-times (1 << attempt.min(5)). -/
def delay_for_attempt (retry_policy : RetryPolicy) (attempt : Nat) : Nat :=
  saturatingMulU64 retry_policy.base_delay_ms (2 ^ min attempt 5)

structure RetryResult where
  outcome : SendOutcome
  attemptsMade : Nat
  totalSleepMs : Nat
deriving DecidableEq

/-- The send_with_retry loop with the attempt counter explicit; fuel only
bounds the recursion and `send_with_retry` passes max_retries + 1, which the
`attempt < max_retries` guard never exhausts. -/
def send_with_retry_go (f : Nat → SendOutcome) (retry_policy : RetryPolicy)
    (attempt : Nat) : Nat → RetryResult
  | 0 => ⟨f attempt, 1, 0⟩
  | fuel + 1 =>
    let outcome := f attempt
    if should_retry_outcome outcome = true ∧ attempt < retry_policy.max_retries then
      let r := send_with_retry_go f retry_policy (attempt + 1) fuel
      ⟨r.outcome, r.attemptsMade + 1,
        delay_for_attempt retry_policy attempt + r.totalSleepMs⟩
    else ⟨outcome, 1, 0⟩

/-- send_with_retry over the sequence of per-attempt outcomes `f`: the final
outcome together with the number of attempts performed and the total
milliseconds slept between attempts. -/
def send_with_retry (f : Nat → SendOutcome) (retry_policy : RetryPolicy) : RetryResult :=
  send_with_retry_go f retry_policy 0 (retry_policy.max_retries + 1)

theorem send_go_success (f : Nat → SendOutcome) (p : RetryPolicy) :
    ∀ j attempt fuel, j ≤ fuel →
    (∀ n, attempt ≤ n → n < attempt + j → should_retry_outcome (f n) = true) →
    should_retry_outcome (f (attempt + j)) = false →
    attempt + j ≤ p.max_retries →
    send_with_retry_go f p attempt fuel =
      ⟨f (attempt + j), j + 1,
        Finset.sum (Finset.range j) (fun n => delay_for_attempt p (attempt + n))⟩ := by
  intro j
  induction j with
  | zero =>
    intro attempt fuel _ _ hstop _
    rw [Nat.add_zero] at hstop
    cases fuel with
    | zero => simp [send_with_retry_go]
    | succ fuel =>
      simp only [send_with_retry_go]
      have hnc : ¬(should_retry_outcome (f attempt) = true ∧ attempt < p.max_retries) := by
        intro hcond
        rw [hstop] at hcond
        exact absurd hcond.1 (by simp)
      rw [if_neg hnc]
      simp
  | succ j ih =>
    intro attempt fuel hfuel hfail hstop hle
    cases fuel with
    | zero => omega
    | succ fuel =>
      have harg : attempt + 1 + j = attempt + (j + 1) := by omega
      simp only [send_with_retry_go]
      have hc : should_retry_outcome (f attempt) = true ∧ attempt < p.max_retries :=
        ⟨hfail attempt (Nat.le_refl _) (by omega), by omega⟩
      rw [if_pos hc]
      have ihr := ih (attempt + 1) fuel (by omega)
        (fun n h1 h2 => hfail n (by omega) (by omega))
        (by rw [harg]; exact hstop) (by omega)
      rw [ihr]
      rw [harg]
      have hsum : delay_for_attempt p attempt +
          Finset.sum (Finset.range j) (fun n => delay_for_attempt p (attempt + 1 + n)) =
          Finset.sum (Finset.range (j + 1)) (fun n => delay_for_attempt p (attempt + n)) := by
        rw [Finset.sum_range_succ']
        simp only [Nat.add_zero]
        rw [Nat.add_comm]
        congr 1
        apply Finset.sum_congr rfl
        intro i _
        congr 1
        omega
      rw [hsum]

theorem send_go_exhaust (f : Nat → SendOutcome) (p : RetryPolicy) :
    ∀ d attempt fuel,
    (∀ n, attempt ≤ n → n ≤ p.max_retries → should_retry_outcome (f n) = true) →
    attempt + d = p.max_retries → d < fuel →
    send_with_retry_go f p attempt fuel =
      ⟨f p.max_retries, d + 1,
        Finset.sum (Finset.range d) (fun n => delay_for_attempt p (attempt + n))⟩ := by
  intro d
  induction d with
  | zero =>
    intro attempt fuel hall heq hfu
    have ha : attempt = p.max_retries := by omega
    cases fuel with
    | zero => omega
    | succ fuel =>
      simp only [send_with_retry_go]
      have hnc : ¬(should_retry_outcome (f attempt) = true ∧ attempt < p.max_retries) := by
        intro hcond
        exact absurd hcond.2 (by omega)
      rw [if_neg hnc]
      simp [ha]
  | succ d ih =>
    intro attempt fuel hall heq hfu
    cases fuel with
    | zero => omega
    | succ fuel =>
      simp only [send_with_retry_go]
      have hc : should_retry_outcome (f attempt) = true ∧ attempt < p.max_retries :=
        ⟨hall attempt (Nat.le_refl _) (by omega), by omega⟩
      rw [if_pos hc]
      have ihr := ih (attempt + 1) fuel (fun n h1 h2 => hall n (by omega) h2)
        (by omega) (by omega)
      rw [ihr]
      have hsum : delay_for_attempt p attempt +
          Finset.sum (Finset.range d) (fun n => delay_for_attempt p (attempt + 1 + n)) =
          Finset.sum (Finset.range (d + 1)) (fun n => delay_for_attempt p (attempt + n)) := by
        rw [Finset.sum_range_succ']
        simp only [Nat.add_zero]
        rw [Nat.add_comm]
        congr 1
        apply Finset.sum_congr rfl
        intro i _
        congr 1
        omega
      rw [hsum]

/-- C3: with k consecutive retryable outcomes followed by a success, the loop
returns the success exactly when k is at most max_retries, makes at most
max_retries + 1 attempts, and, whenever the success is reached, sleeps the sum
of delay_for_attempt over the k failed attempts. -/
theorem c3_retry (p : RetryPolicy) (f : Nat → SendOutcome) (k sk : Nat)
    (hfail : ∀ n, n < k → should_retry_outcome (f n) = true)
    (hsucc : f k = SendOutcome.response sk)
    (hok : should_retry_status sk = false) :
    ((send_with_retry f p).outcome = f k ↔ k ≤ p.max_retries) ∧
    (send_with_retry f p).attemptsMade ≤ p.max_retries + 1 ∧
    (k ≤ p.max_retries →
      (send_with_retry f p).totalSleepMs =
        Finset.sum (Finset.range k) (fun n => delay_for_attempt p n)) := by
  have hstop : should_retry_outcome (f k) = false := by
    rw [hsucc]
    exact hok
  by_cases hk : k ≤ p.max_retries
  · have h := send_go_success f p k 0 (p.max_retries + 1) (by omega)
      (fun n h1 h2 => hfail n (by omega))
      (by rw [Nat.zero_add]; exact hstop) (by omega)
    simp only [Nat.zero_add] at h
    unfold send_with_retry
    rw [h]
    exact ⟨⟨fun _ => hk, fun _ => rfl⟩, by simp; omega, fun _ => rfl⟩
  · have h := send_go_exhaust f p p.max_retries 0 (p.max_retries + 1)
      (fun n h1 h2 => hfail n (by omega)) (by omega) (by omega)
    simp only [Nat.zero_add] at h
    unfold send_with_retry
    rw [h]
    refine ⟨⟨?_, fun hc => absurd hc hk⟩, by simp, fun hc => absurd hc hk⟩
    intro heq
    have h1 : should_retry_outcome (f p.max_retries) = true := hfail _ (by omega)
    simp only at heq
    rw [heq, hstop] at h1
    exact absurd h1 (by simp)

/-- C3 witness: two 503 responses then a 200, with max_retries = 2 and
base delay 10 ms: the 200 is returned and the sleeps sum as claimed. -/
theorem c3_retry_witness :
    (send_with_retry
        (fun n => if n < 2 then SendOutcome.response 503 else SendOutcome.response 200)
        ⟨2, 10⟩).outcome
      = (fun n => if n < 2 then SendOutcome.response 503 else SendOutcome.response 200) 2 ∧
    (send_with_retry
        (fun n => if n < 2 then SendOutcome.response 503 else SendOutcome.response 200)
        ⟨2, 10⟩).totalSleepMs
      = Finset.sum (Finset.range 2) (fun n => delay_for_attempt ⟨2, 10⟩ n) := by
  have h := c3_retry ⟨2, 10⟩
    (fun n => if n < 2 then SendOutcome.response 503 else SendOutcome.response 200) 2 200
    (by intro n hn; interval_cases n <;> decide) (by decide) (by decide)
  exact ⟨h.1.mpr (by decide), h.2.2 (by decide)⟩

/-! ## Gateway auth (src/gateway/src/auth.rs over src/gateway/src/config.rs) -/

structure Config where
  gateway_api_keys : List String
  openai_api_key : Option String
  anthropic_api_key : Option String
  gemini_api_key : Option String
  kimi_api_key : Option String
  openrouter_api_key : Option String
  vercel_ai_gateway_api_key : Option String
  groq_api_key : Option String
  deepseek_api_key : Option String
  xai_api_key : Option String
  mistral_api_key : Option String
  cohere_api_key : Option String
  azure_openai_api_key : Option String
  aws_bedrock_api_key : Option String
  vertex_ai_api_key : Option String

/-- The per-provider configured key selected by the match inside
resolve_provider_api_key. -/
def configured_api_key (config : Config) (provider : ProviderKind) : Option String :=
  match provider with
  | .openAi => config.openai_api_key
  | .anthropic => config.anthropic_api_key
  | .gemini => config.gemini_api_key
  | .kimi => config.kimi_api_key
  | .openRouter => config.openrouter_api_key
  | .vercelAiGateway => config.vercel_ai_gateway_api_key
  | .groq => config.groq_api_key
  | .deepSeek => config.deepseek_api_key
  | .xAi => config.xai_api_key
  | .mistral => config.mistral_api_key
  | .cohere => config.cohere_api_key
  | .azureOpenAi => config.azure_openai_api_key
  | .awsBedrock => config.aws_bedrock_api_key
  | .vertexAi => config.vertex_ai_api_key

/-- validate_gateway_key: an empty allow-list accepts anything; otherwise the
token must equal one of the configured gateway keys. -/
def validate_gateway_key (config : Config) (token : String) : Except GatewayError Unit :=
  if config.gateway_api_keys.isEmpty then Except.ok ()
  else if config.gateway_api_keys.any (fun configured_key => configured_key == token) then
    Except.ok ()
  else Except.error (GatewayError.unauthorized "Invalid gateway API key")

/-- resolve_provider_api_key: validate the gateway key, then send the
configured per-provider key if present, else the client token. -/
def resolve_provider_api_key (config : Config) (token : String)
    (provider : ProviderKind) : Except GatewayError String :=
  match validate_gateway_key config token with
  | .error e => Except.error e
  | .ok _ => Except.ok ((configured_api_key config provider).getD token)

/-- C7: a configured provider key wins, otherwise the client bearer is
forwarded verbatim; an empty allow-list lets every (non-empty) token through;
a token outside a non-empty allow-list yields Unauthorized and no key. -/
theorem c7_credential_resolution (config : Config) (token : String)
    (provider : ProviderKind) :
    (config.gateway_api_keys = [] → token ≠ "" →
      validate_gateway_key config token = Except.ok ()) ∧
    (∀ key, validate_gateway_key config token = Except.ok () →
      configured_api_key config provider = some key →
      resolve_provider_api_key config token provider = Except.ok key) ∧
    (validate_gateway_key config token = Except.ok () →
      configured_api_key config provider = none →
      resolve_provider_api_key config token provider = Except.ok token) ∧
    (config.gateway_api_keys ≠ [] → token ∉ config.gateway_api_keys →
      resolve_provider_api_key config token provider =
        Except.error (GatewayError.unauthorized "Invalid gateway API key")) := by
  refine ⟨?_, ?_, ?_, ?_⟩
  · intro h _
    simp [validate_gateway_key, h]
  · intro key hv hc
    simp [resolve_provider_api_key, hv, hc]
  · intro hv hc
    simp [resolve_provider_api_key, hv, hc]
  · intro hne hnotin
    have h1 : config.gateway_api_keys.isEmpty = false := by
      cases hl : config.gateway_api_keys with
      | nil => exact absurd hl hne
      | cons a l => rfl
    have h2 : config.gateway_api_keys.any
        (fun configured_key => configured_key == token) = false := by
      rw [List.any_eq_false]
      intro x hx
      simp only [beq_iff_eq]
      intro heq
      exact hnotin (heq ▸ hx)
    have hv : validate_gateway_key config token =
        Except.error (GatewayError.unauthorized "Invalid gateway API key") := by
      simp [validate_gateway_key, h1, h2]
    simp [resolve_provider_api_key, hv]

/-- C7 witness: with allow-list k1 and only an openai key configured, the
openai provider gets the configured key, gemini gets the bearer, and a token
outside the allow-list is rejected. -/
theorem c7_credential_resolution_witness :
    resolve_provider_api_key
        ⟨["k1"], some "sk-live", none, none, none, none, none, none, none, none,
          none, none, none, none, none⟩ "k1" ProviderKind.openAi = Except.ok "sk-live" ∧
    resolve_provider_api_key
        ⟨["k1"], some "sk-live", none, none, none, none, none, none, none, none,
          none, none, none, none, none⟩ "k1" ProviderKind.gemini = Except.ok "k1" ∧
    resolve_provider_api_key
        ⟨["k1"], some "sk-live", none, none, none, none, none, none, none, none,
          none, none, none, none, none⟩ "bad" ProviderKind.openAi =
      Except.error (GatewayError.unauthorized "Invalid gateway API key") := by
  refine ⟨?_, ?_, ?_⟩
  · exact (c7_credential_resolution _ "k1" ProviderKind.openAi).2.1 "sk-live" rfl rfl
  · exact (c7_credential_resolution _ "k1" ProviderKind.gemini).2.2.1 rfl rfl
  · exact (c7_credential_resolution _ "bad" ProviderKind.openAi).2.2.2
      (by simp) (by simp)

/-! ## SSE frame bytes emitted by the streaming paths
(src/gateway/src/sdk/anthropic.rs stream_text,
src/gateway/src/http/responses.rs stream_responses_from_chat_stream) -/

/-- The bytes yielded for a data event at every yield site of both streaming
paths. The Rust format strings escape the backslash, so the suffix after the
payload is the four characters backslash, n, backslash, n rather than two
newline characters. -/
def sse_data_frame (payload : String) : String := "data: " ++ payload ++ "\\n\\n"

/-- The terminal marker bytes yielded by both streaming paths, again with
literal backslash-n pairs. -/
def sse_done_frame : String := "data: [DONE]" ++ "\\n\\n"

/-- Modelled from the spec: the SSE framing the spec requires for a data
event, payload followed by two newline characters. -/
def spec_data_frame (payload : String) : String := "data: " ++ payload ++ "\n\n"

/-- Modelled from the spec: the required terminal marker followed by two
newline characters. -/
def spec_done_frame : String := "data: [DONE]" ++ "\n\n"

/-- C1 fails on the code: no emitted frame ends with two newline characters;
every yield site appends the literal characters backslash-n backslash-n, and
in particular the terminal marker differs from the spec's terminal marker. -/
theorem c1_sse_framing_bug (payload : String) :
    sse_data_frame payload ≠ spec_data_frame payload ∧
      sse_done_frame ≠ spec_done_frame := by
  constructor
  · intro h
    have hd := congrArg String.data h
    simp only [sse_data_frame, spec_data_frame, strData_append] at hd
    have hs := List.append_cancel_left hd
    exact absurd hs (by decide)
  · intro h
    have hd := congrArg String.data h
    simp only [sse_done_frame, spec_done_frame, strData_append] at hd
    have hs := List.append_cancel_left hd
    exact absurd hs (by decide)

/-! ## Anthropic request translation (src/gateway/src/sdk/anthropic.rs) -/

/-- Rust str::trim: drop leading and trailing whitespace (char-level; core
String.trim is not kernel-reducible, so the embedding trims the char list
directly). -/
def rustTrim (s : String) : String :=
  ⟨((s.data.dropWhile Char.isWhitespace).reverse.dropWhile Char.isWhitespace).reverse⟩

/-- One element of a content array: a bare string as-is, otherwise the
element's string `text` field (the source checks type == "text" first, but its
fallback arm reads the same `text` field, so the two arms agree). -/
def extractItemText (item : Json) : Option String :=
  match item.asStr with
  | some text => some text
  | none =>
    if (item.get "type").bind Json.asStr = some "text" then
      (item.get "text").bind Json.asStr
    else
      (item.get "text").bind Json.asStr

/-- extract_text_content: a string as-is; an array's extracted items joined
with a newline; any other shape yields the empty string. -/
def extract_text_content (content : Json) : String :=
  match content with
  | .str text => text
  | .arr items => String.intercalate "\n" (items.filterMap extractItemText)
  | _ => ""

/-- The object pushed into the anthropic messages array for a kept
user/assistant message. -/
def anthropic_message (role text : String) : Json :=
  Json.obj [("role", Json.str role),
    ("content",
      Json.arr [Json.obj [("type", Json.str "text"), ("text", Json.str text)]])]

/-- The message loop of to_anthropic_request: the collected system texts and
the kept anthropic messages, in input order. -/
def collect_messages : List Json → List String × List Json
  | [] => ([], [])
  | message :: rest =>
    let restPair := collect_messages rest
    let role := ((message.get "role").bind Json.asStr).getD "user"
    let content := extract_text_content ((message.get "content").getD Json.null)
    if (rustTrim content).isEmpty then restPair
    else if role = "system" then (content :: restPair.1, restPair.2)
    else if role ≠ "user" ∧ role ≠ "assistant" then restPair
    else (restPair.1, anthropic_message role content :: restPair.2)

/-- to_anthropic_request: translate a canonical chat request into the
Anthropic messages body. -/
def to_anthropic_request (request : Json) (stream : Bool) : Except GatewayError Json :=
  match (request.get "model").bind Json.asStr with
  | none => Except.error (GatewayError.badRequest "Missing model")
  | some model =>
    match (request.get "messages").bind Json.asArray with
    | none => Except.error (GatewayError.badRequest "Missing messages")
    | some messages =>
      let collected := collect_messages messages
      if collected.2.isEmpty then
        Except.error (GatewayError.badRequest
          "At least one user or assistant message is required")
      else
        let max_tokens :=
          (((request.get "max_tokens").bind Json.asU64).orElse
            (fun _ => (request.get "max_completion_tokens").bind Json.asU64)).getD 1024
        let body := Json.obj [("model", Json.str model),
          ("messages", Json.arr collected.2),
          ("max_tokens", Json.num max_tokens),
          ("stream", Json.bool stream)]
        let body := set_if_present body "temperature"
          (((request.get "temperature").bind Json.asF64).map Json.num)
        let body := set_if_present body "top_p"
          (((request.get "top_p").bind Json.asF64).map Json.num)
        let body :=
          if collected.1.isEmpty then body
          else body.setKey "system" (Json.str (String.intercalate "\n\n" collected.1))
        Except.ok body

/-- The system texts claim C4 describes: content of system-role messages that
survive the whitespace filter, in order. -/
def system_texts (messages : List Json) : List String :=
  messages.filterMap (fun message =>
    let role := ((message.get "role").bind Json.asStr).getD "user"
    let content := extract_text_content ((message.get "content").getD Json.null)
    if (rustTrim content).isEmpty then none
    else if role = "system" then some content
    else none)

/-- The kept user/assistant messages claims C4 and C8 describe. -/
def kept_messages (messages : List Json) : List Json :=
  messages.filterMap (fun message =>
    let role := ((message.get "role").bind Json.asStr).getD "user"
    let content := extract_text_content ((message.get "content").getD Json.null)
    if (rustTrim content).isEmpty then none
    else if role = "system" then none
    else if role ≠ "user" ∧ role ≠ "assistant" then none
    else some (anthropic_message role content))

theorem collect_messages_eq (messages : List Json) :
    collect_messages messages = (system_texts messages, kept_messages messages) := by
  induction messages with
  | nil => rfl
  | cons message rest ih =>
    by_cases hws :
        (rustTrim (extract_text_content ((message.get "content").getD Json.null))).isEmpty
    · simp [collect_messages, system_texts, kept_messages, List.filterMap_cons, hws, ih]
    · by_cases hsys : ((message.get "role").bind Json.asStr).getD "user" = "system"
      · simp [collect_messages, system_texts, kept_messages, List.filterMap_cons,
          hws, hsys, ih]
      · by_cases hrole : ((message.get "role").bind Json.asStr).getD "user" ≠ "user" ∧
            ((message.get "role").bind Json.asStr).getD "user" ≠ "assistant"
        · simp [collect_messages, system_texts, kept_messages, List.filterMap_cons,
            hws, hsys, hrole, ih]
        · simp [collect_messages, system_texts, kept_messages, List.filterMap_cons,
            hws, hsys, hrole, ih]

theorem assocFind_setField_self (fields : List (String × Json)) (key : String) (v : Json) :
    assocFind (setField fields key v) key = some v := by
  induction fields with
  | nil => simp [setField, assocFind]
  | cons kv rest ih =>
    obtain ⟨k, w⟩ := kv
    by_cases h : k = key
    · simp [setField, assocFind, h]
    · simp [setField, assocFind, h, ih]

theorem assocFind_setField_ne (fields : List (String × Json)) (key key2 : String)
    (v : Json) (h : key2 ≠ key) :
    assocFind (setField fields key v) key2 = assocFind fields key2 := by
  induction fields with
  | nil => simp [setField, assocFind, Ne.symm h]
  | cons kv rest ih =>
    obtain ⟨k, w⟩ := kv
    by_cases hk : k = key
    · subst hk
      simp [setField, assocFind, Ne.symm h]
    · simp [setField, assocFind, hk, ih]

theorem setKey_get_self (j : Json) (key : String) (v : Json) (h : j.isObj = true) :
    (j.setKey key v).get key = some v := by
  cases j with
  | obj fields => simp [Json.setKey, Json.get, assocFind_setField_self]
  | null => simp [Json.isObj] at h
  | bool b => simp [Json.isObj] at h
  | num n => simp [Json.isObj] at h
  | str s => simp [Json.isObj] at h
  | arr items => simp [Json.isObj] at h

theorem setKey_get_ne (j : Json) (key key2 : String) (v : Json) (h : key2 ≠ key) :
    (j.setKey key v).get key2 = j.get key2 := by
  cases j with
  | obj fields => simp [Json.setKey, Json.get, assocFind_setField_ne fields key key2 v h]
  | null => rfl
  | bool b => rfl
  | num n => rfl
  | str s => rfl
  | arr items => rfl

theorem set_if_present_get_ne (j : Json) (key key2 : String) (o : Option Json)
    (h : key2 ≠ key) :
    (set_if_present j key o).get key2 = j.get key2 := by
  cases o with
  | none => rfl
  | some v => exact setKey_get_ne j key key2 v h

theorem isObj_setKey (j : Json) (key : String) (v : Json) :
    (j.setKey key v).isObj = j.isObj := by
  cases j <;> rfl

theorem isObj_set_if_present (j : Json) (key : String) (o : Option Json) :
    (set_if_present j key o).isObj = j.isObj := by
  cases o with
  | none => rfl
  | some v => exact isObj_setKey j key v

/-- Modelled from the claim: max_tokens falls back to max_completion_tokens
and then to 1024. -/
def claim_max_tokens (request : Json) : Nat :=
  match (request.get "max_tokens").bind Json.asU64 with
  | some value => value
  | none =>
    match (request.get "max_completion_tokens").bind Json.asU64 with
    | some value => value
    | none => 1024

theorem claim_max_tokens_eq (request : Json) :
    (((request.get "max_tokens").bind Json.asU64).orElse
      (fun _ => (request.get "max_completion_tokens").bind Json.asU64)).getD 1024 =
    claim_max_tokens request := by
  cases h1 : (request.get "max_tokens").bind Json.asU64 with
  | some v => simp [claim_max_tokens, h1, Option.orElse]
  | none =>
    cases h2 : (request.get "max_completion_tokens").bind Json.asU64 with
    | some v => simp [claim_max_tokens, h1, h2, Option.orElse]
    | none => simp [claim_max_tokens, h1, h2, Option.orElse]

/-- C4: on every accepted request the body's system key is the double-newline
join of the surviving system texts (absent when there are none), the messages
array is exactly the kept user/assistant messages in canonical form, and
max_tokens follows the max_tokens / max_completion_tokens / 1024 precedence. -/
theorem c4_anthropic_translation (request : Json) (stream : Bool) (body : Json)
    (msgs : List Json)
    (hmsgs : (request.get "messages").bind Json.asArray = some msgs)
    (hok : to_anthropic_request request stream = Except.ok body) :
    body.get "system" =
        (if (system_texts msgs).isEmpty then none
         else some (Json.str (String.intercalate "\n\n" (system_texts msgs)))) ∧
    body.get "messages" = some (Json.arr (kept_messages msgs)) ∧
    body.get "max_tokens" = some (Json.num (claim_max_tokens request)) := by
  cases hmodel : (request.get "model").bind Json.asStr with
  | none => simp [to_anthropic_request, hmodel] at hok
  | some model =>
    cases hke : (kept_messages msgs).isEmpty with
    | true => simp [to_anthropic_request, hmodel, hmsgs, collect_messages_eq, hke] at hok
    | false =>
      simp only [to_anthropic_request, hmodel, hmsgs, collect_messages_eq, hke,
        Bool.false_eq_true, if_false, Except.ok.injEq] at hok
      subst hok
      set mt := (((request.get "max_tokens").bind Json.asU64).orElse
        (fun _ => (request.get "max_completion_tokens").bind Json.asU64)).getD 1024
        with hmt
      set B0 : Json := Json.obj [("model", Json.str model),
        ("messages", Json.arr (kept_messages msgs)),
        ("max_tokens", Json.num mt),
        ("stream", Json.bool stream)] with hB0
      set B2 := set_if_present (set_if_present B0 "temperature"
        (((request.get "temperature").bind Json.asF64).map Json.num)) "top_p"
        (((request.get "top_p").bind Json.asF64).map Json.num) with hB2
      have hobj : B2.isObj = true := by
        rw [hB2, isObj_set_if_present, isObj_set_if_present, hB0]
        rfl
      have hsys2 : B2.get "system" = none := by
        rw [hB2, set_if_present_get_ne _ _ _ _ (by decide),
          set_if_present_get_ne _ _ _ _ (by decide), hB0]
        rfl
      have hmsg2 : B2.get "messages" = some (Json.arr (kept_messages msgs)) := by
        rw [hB2, set_if_present_get_ne _ _ _ _ (by decide),
          set_if_present_get_ne _ _ _ _ (by decide), hB0]
        rfl
      have hmax2 : B2.get "max_tokens" = some (Json.num mt) := by
        rw [hB2, set_if_present_get_ne _ _ _ _ (by decide),
          set_if_present_get_ne _ _ _ _ (by decide), hB0]
        rfl
      cases hse : (system_texts msgs).isEmpty with
      | true =>
        refine ⟨?_, ?_, ?_⟩
        · simp [hse, hsys2]
        · simp [hse, hmsg2]
        · simp [hse, hmax2, hmt, claim_max_tokens_eq]
      | false =>
        refine ⟨?_, ?_, ?_⟩
        · simp only [hse, Bool.false_eq_true, if_false]
          rw [setKey_get_self _ _ _ hobj]
        · simp only [hse, Bool.false_eq_true, if_false]
          rw [setKey_get_ne _ _ _ _ (by decide)]
          exact hmsg2
        · simp only [hse, Bool.false_eq_true, if_false]
          rw [setKey_get_ne _ _ _ _ (by decide), hmax2, hmt, claim_max_tokens_eq]

/-- C4 witness: a system message plus a user message, with only
max_completion_tokens set, produce the expected system string, canonical
message array, and max_tokens 77. -/
theorem c4_anthropic_translation_witness :
    (Json.obj [("model", Json.str "m"),
        ("messages", Json.arr [anthropic_message "user" "hi"]),
        ("max_tokens", Json.num 77),
        ("stream", Json.bool false),
        ("system", Json.str "be nice")]).get "system" =
      (if (system_texts [Json.obj [("role", Json.str "system"),
            ("content", Json.str "be nice")],
          Json.obj [("role", Json.str "user"), ("content", Json.str "hi")]]).isEmpty
       then none
       else some (Json.str (String.intercalate "\n\n"
        (system_texts [Json.obj [("role", Json.str "system"),
            ("content", Json.str "be nice")],
          Json.obj [("role", Json.str "user"), ("content", Json.str "hi")]])))) ∧
    (Json.obj [("model", Json.str "m"),
        ("messages", Json.arr [anthropic_message "user" "hi"]),
        ("max_tokens", Json.num 77),
        ("stream", Json.bool false),
        ("system", Json.str "be nice")]).get "messages" =
      some (Json.arr (kept_messages [Json.obj [("role", Json.str "system"),
          ("content", Json.str "be nice")],
        Json.obj [("role", Json.str "user"), ("content", Json.str "hi")]])) ∧
    (Json.obj [("model", Json.str "m"),
        ("messages", Json.arr [anthropic_message "user" "hi"]),
        ("max_tokens", Json.num 77),
        ("stream", Json.bool false),
        ("system", Json.str "be nice")]).get "max_tokens" =
      some (Json.num (claim_max_tokens (Json.obj [("model", Json.str "m"),
        ("messages", Json.arr [Json.obj [("role", Json.str "system"),
            ("content", Json.str "be nice")],
          Json.obj [("role", Json.str "user"), ("content", Json.str "hi")]]),
        ("max_completion_tokens", Json.num 77)]))) :=
  c4_anthropic_translation
    (Json.obj [("model", Json.str "m"),
      ("messages", Json.arr [Json.obj [("role", Json.str "system"),
          ("content", Json.str "be nice")],
        Json.obj [("role", Json.str "user"), ("content", Json.str "hi")]]),
      ("max_completion_tokens", Json.num 77)])
    false
    (Json.obj [("model", Json.str "m"),
      ("messages", Json.arr [anthropic_message "user" "hi"]),
      ("max_tokens", Json.num 77),
      ("stream", Json.bool false),
      ("system", Json.str "be nice")])
    [Json.obj [("role", Json.str "system"), ("content", Json.str "be nice")],
      Json.obj [("role", Json.str "user"), ("content", Json.str "hi")]]
    (by rfl) (by rfl)

/-- C8: with model and messages present, translation fails exactly when no
user/assistant message survives the filtering, the failure is the BadRequest
error, and on failure no body is produced. -/
theorem c8_translation_badrequest (request : Json) (stream : Bool) (model : String)
    (msgs : List Json)
    (hmodel : (request.get "model").bind Json.asStr = some model)
    (hmsgs : (request.get "messages").bind Json.asArray = some msgs) :
    (to_anthropic_request request stream =
        Except.error (GatewayError.badRequest
          "At least one user or assistant message is required") ↔
      kept_messages msgs = []) ∧
    (∀ e, to_anthropic_request request stream = Except.error e →
      e = GatewayError.badRequest
        "At least one user or assistant message is required") ∧
    (kept_messages msgs = [] →
      ∀ body, ¬ to_anthropic_request request stream = Except.ok body) := by
  cases hke : (kept_messages msgs).isEmpty with
  | true =>
    have hkl : kept_messages msgs = [] := by
      cases hl : kept_messages msgs with
      | nil => rfl
      | cons a l =>
        rw [hl] at hke
        simp at hke
    have hres : to_anthropic_request request stream =
        Except.error (GatewayError.badRequest
          "At least one user or assistant message is required") := by
      simp [to_anthropic_request, hmodel, hmsgs, collect_messages_eq, hke]
    refine ⟨by simp [hres, hkl], fun e he => ?_, fun _ body hb => ?_⟩
    · rw [hres] at he
      injection he with h
      exact h.symm
    · rw [hres] at hb
      exact absurd hb (by simp)
  | false =>
    have hkl : kept_messages msgs ≠ [] := by
      intro h
      rw [h] at hke
      simp at hke
    cases hmo : (request.get "model").bind Json.asStr with
    | none => rw [hmo] at hmodel; exact absurd hmodel (by simp)
    | some m =>
      have hres : to_anthropic_request request stream = Except.ok
          (if (system_texts msgs).isEmpty then
            set_if_present (set_if_present (Json.obj [("model", Json.str m),
              ("messages", Json.arr (kept_messages msgs)),
              ("max_tokens", Json.num ((((request.get "max_tokens").bind Json.asU64).orElse
                (fun _ => (request.get "max_completion_tokens").bind Json.asU64)).getD 1024)),
              ("stream", Json.bool stream)]) "temperature"
              (((request.get "temperature").bind Json.asF64).map Json.num)) "top_p"
              (((request.get "top_p").bind Json.asF64).map Json.num)
          else
            (set_if_present (set_if_present (Json.obj [("model", Json.str m),
              ("messages", Json.arr (kept_messages msgs)),
              ("max_tokens", Json.num ((((request.get "max_tokens").bind Json.asU64).orElse
                (fun _ => (request.get "max_completion_tokens").bind Json.asU64)).getD 1024)),
              ("stream", Json.bool stream)]) "temperature"
              (((request.get "temperature").bind Json.asF64).map Json.num)) "top_p"
              (((request.get "top_p").bind Json.asF64).map Json.num)).setKey "system"
              (Json.str (String.intercalate "\n\n" (system_texts msgs)))) := by
        simp [to_anthropic_request, hmo, hmsgs, collect_messages_eq, hke]
      refine ⟨by rw [hres]; simp [hkl], fun e he => ?_, fun h => absurd h hkl⟩
      rw [hres] at he
      exact absurd he (by simp)

/-- C8 witness: a request whose only message is a whitespace-only user message
is rejected with the BadRequest error. -/
theorem c8_translation_badrequest_witness :
    to_anthropic_request (Json.obj [("model", Json.str "m"),
        ("messages", Json.arr [Json.obj [("role", Json.str "user"),
          ("content", Json.str "   ")]])]) false =
      Except.error (GatewayError.badRequest
        "At least one user or assistant message is required") :=
  (c8_translation_badrequest (Json.obj [("model", Json.str "m"),
      ("messages", Json.arr [Json.obj [("role", Json.str "user"),
        ("content", Json.str "   ")]])]) false "m"
    [Json.obj [("role", Json.str "user"), ("content", Json.str "   ")]]
    (by rfl) (by rfl)).1.mpr (by rfl)

/-! ## Responses API transcoder (src/gateway/src/http/responses.rs) -/

/-- extract_text in responses.rs: like extract_text_content but with an extra
arm for type == "output_text"; all arms read the same string text field. -/
def extract_text (value : Json) : String :=
  match value with
  | .str text => text
  | .arr items => String.intercalate "\n" (items.filterMap (fun item =>
      match item.asStr with
      | some text => some text
      | none =>
        if (item.get "type").bind Json.asStr = some "text" then
          (item.get "text").bind Json.asStr
        else if (item.get "type").bind Json.asStr = some "output_text" then
          (item.get "text").bind Json.asStr
        else
          (item.get "text").bind Json.asStr))
  | _ => ""

/-- One entry of a responses-API input array: a role-carrying entry keeps its
extracted non-empty content, a text-carrying entry becomes a user message,
anything else is skipped. -/
def inputEntryToMessage (entry : Json) : Option Json :=
  match (entry.get "role").bind Json.asStr with
  | some role =>
    let content := ((entry.get "content").map extract_text).getD ""
    if content.isEmpty then none
    else some (Json.obj [("role", Json.str role), ("content", Json.str content)])
  | none =>
    match (entry.get "text").bind Json.asStr with
    | some text =>
      some (Json.obj [("role", Json.str "user"), ("content", Json.str text)])
    | none => none

/-- to_messages_from_input. -/
def to_messages_from_input (input : Json) : Except GatewayError Json :=
  match input with
  | .str text =>
    Except.ok (Json.arr [Json.obj [("role", Json.str "user"),
      ("content", Json.str text)]])
  | .arr entries =>
    if entries.isEmpty then
      Except.error (GatewayError.badRequest
        "input array must contain at least one entry")
    else
      let messages := entries.filterMap inputEntryToMessage
      if messages.isEmpty then
        Except.error (GatewayError.badRequest "Unable to extract messages from input")
      else Except.ok (Json.arr messages)
  | _ => Except.error (GatewayError.badRequest "input must be a string or array")

/-- The passthrough-field chain at the end of build_chat_request, in source
order: temperature, top_p, then max_output_tokens into max_tokens, then
max_tokens into max_tokens, then max_completion_tokens. -/
def assemble_chat_request (payload : Json) (model : String) (stream : Bool)
    (messages : Json) : Json :=
  let request := Json.obj [("model", Json.str model),
    ("messages", messages), ("stream", Json.bool stream)]
  let request := set_if_present request "temperature" (payload.get "temperature")
  let request := set_if_present request "top_p" (payload.get "top_p")
  let request := set_if_present request "max_tokens" (payload.get "max_output_tokens")
  let request := set_if_present request "max_tokens" (payload.get "max_tokens")
  set_if_present request "max_completion_tokens" (payload.get "max_completion_tokens")

/-- build_chat_request: canonical chat request from a responses-API payload. -/
def build_chat_request (payload : Json) : Except GatewayError Json :=
  match (payload.get "model").bind Json.asStr with
  | none => Except.error (GatewayError.badRequest "The request body must include a model")
  | some model =>
    let stream := ((payload.get "stream").bind Json.asBool).getD false
    let messagesResult : Except GatewayError Json :=
      match (payload.get "messages").bind Json.asArray with
      | some messages => Except.ok (Json.arr messages)
      | none =>
        match payload.get "input" with
        | none => Except.error (GatewayError.badRequest
            "The request body must include input or messages")
        | some input => to_messages_from_input input
    match messagesResult with
    | .error e => Except.error e
    | .ok messages => Except.ok (assemble_chat_request payload model stream messages)

theorem set_if_present_some (j : Json) (k : String) (v : Json) :
    set_if_present j k (some v) = j.setKey k v := rfl

theorem set_if_present_none (j : Json) (k : String) :
    set_if_present j k none = j := rfl

theorem build_chat_request_ok_shape (payload req : Json)
    (hok : build_chat_request payload = Except.ok req) :
    ∃ model stream messages, req = assemble_chat_request payload model stream messages := by
  cases hmo : (payload.get "model").bind Json.asStr with
  | none => simp [build_chat_request, hmo] at hok
  | some model =>
    simp only [build_chat_request, hmo] at hok
    split at hok
    · simp at hok
    · simp only [Except.ok.injEq] at hok
      exact ⟨model, _, _, hok.symm⟩

/-- C10: when the payload carries max_tokens it wins over max_output_tokens in
the built request; with only max_output_tokens present, that value lands in
max_tokens. -/
theorem c10_max_tokens_override (payload req : Json)
    (hok : build_chat_request payload = Except.ok req) :
    (∀ v, payload.get "max_tokens" = some v → req.get "max_tokens" = some v) ∧
    (payload.get "max_tokens" = none →
      ∀ w, payload.get "max_output_tokens" = some w →
        req.get "max_tokens" = some w) := by
  obtain ⟨model, stream, messages, rfl⟩ := build_chat_request_ok_shape payload req hok
  constructor
  · intro v hv
    unfold assemble_chat_request
    rw [set_if_present_get_ne _ _ _ _ (by decide), hv, set_if_present_some,
      setKey_get_self]
    rw [isObj_set_if_present, isObj_set_if_present, isObj_set_if_present]
    rfl
  · intro hnone w hw
    unfold assemble_chat_request
    rw [set_if_present_get_ne _ _ _ _ (by decide), hnone, set_if_present_none,
      hw, set_if_present_some, setKey_get_self]
    rw [isObj_set_if_present, isObj_set_if_present]
    rfl

/-- C10 witness: with max_tokens 5 and max_output_tokens 9 both present, the
built request carries max_tokens 5. -/
theorem c10_max_tokens_override_witness :
    (Json.obj [("model", Json.str "m"),
      ("messages", Json.arr [Json.obj [("role", Json.str "user"),
        ("content", Json.str "hi")]]),
      ("stream", Json.bool false),
      ("max_tokens", Json.num 5)]).get "max_tokens" = some (Json.num 5) :=
  (c10_max_tokens_override
    (Json.obj [("model", Json.str "m"), ("input", Json.str "hi"),
      ("max_tokens", Json.num 5), ("max_output_tokens", Json.num 9)])
    (Json.obj [("model", Json.str "m"),
      ("messages", Json.arr [Json.obj [("role", Json.str "user"),
        ("content", Json.str "hi")]]),
      ("stream", Json.bool false),
      ("max_tokens", Json.num 5)])
    (by rfl)).1 (Json.num 5) (by rfl)

/-! ### Streaming transcoder state machine
(stream_responses_from_chat_stream). Input is modelled at line granularity:
the loop drains complete newline-terminated lines, strips a trailing carriage
return, skips lines without a data: payload, skips empty payloads and
payloads rejected by the JSON parser, recognises the literal terminal
payload, and otherwise interprets the parsed chunk. -/

/-- A complete consumed line: a skipped line (no data: payload, blank payload,
or JSON parse failure — all of which the loop skips), the literal terminal
payload, or a data line whose payload parsed as the given JSON value. -/
inductive ChatLine where
  | other
  | done
  | chunk (value : Json)

/-- The transcoder's mutable state. -/
structure RespState where
  responseId : String
  model : String
  created : Nat
  emittedCreated : Bool
  emittedCompleted : Bool
  fullText : String

/-- The initial state; `now` is the unix clock read at stream start. -/
def initRespState (now : Nat) : RespState :=
  ⟨"resp_gateway", "unknown", now, false, false, ""⟩

/-- An emitted event, carrying the payload fields the claims mention. -/
inductive RespEvent where
  | createdEvent (responseId : String) (created : Nat) (model : String)
  | outputTextDelta (responseId delta : String)
  | completedEvent (responseId : String) (created : Nat) (model text : String)
  | doneMark
deriving DecidableEq

/-- choices[0].delta.content as a string, defaulting to empty. -/
def chunkDeltaText (value : Json) : String :=
  (((((value.get "choices").bind Json.asArray).bind List.head?).bind
    (fun choice => choice.get "delta")).bind
    (fun delta => (delta.get "content").bind Json.asStr)).getD ""

/-- choices[0].finish_reason. -/
def chunkFinishReason (value : Json) : Option Json :=
  (((value.get "choices").bind Json.asArray).bind List.head?).bind
    (fun choice => choice.get "finish_reason")

/-- The id, model and created updates every parsed chunk applies. -/
def updateMeta (s : RespState) (value : Json) : RespState :=
  let s :=
    match (value.get "id").bind Json.asStr with
    | some id => { s with responseId := "resp_" ++ id }
    | none => s
  let s :=
    match (value.get "model").bind Json.asStr with
    | some m => { s with model := m }
    | none => s
  match (value.get "created").bind Json.asU64 with
  | some c => { s with created := c }
  | none => s

/-- The response.completed event followed by the terminal marker, rendered
from the current state. -/
def completedPair (s : RespState) : List RespEvent :=
  [RespEvent.completedEvent s.responseId s.created s.model s.fullText,
    RespEvent.doneMark]

/-- Emit response.created once, before the first chunk's other output. -/
def createdStep (s : RespState) : RespState × List RespEvent :=
  if s.emittedCreated then (s, [])
  else ({ s with emittedCreated := true },
    [RespEvent.createdEvent s.responseId s.created s.model])

/-- Emit a response.output_text.delta for a non-empty content delta,
accumulating it into full_text. -/
def deltaStep (s : RespState) (value : Json) : RespState × List RespEvent :=
  let deltaText := chunkDeltaText value
  if deltaText.isEmpty then (s, [])
  else ({ s with fullText := s.fullText ++ deltaText },
    [RespEvent.outputTextDelta s.responseId deltaText])

/-- Emit the completed pair when finish_reason is present and non-null and
nothing was completed yet. -/
def finishStep (s : RespState) (value : Json) : RespState × List RespEvent :=
  let finishReason := chunkFinishReason value
  let finishIsNull :=
    match finishReason with
    | some j => j.isNull
    | none => false
  if finishReason.isSome && !finishIsNull && !s.emittedCompleted then
    ({ s with emittedCompleted := true }, completedPair s)
  else (s, [])

/-- Processing of one complete line by the transcoder loop. -/
def stepLine (s : RespState) (line : ChatLine) : RespState × List RespEvent :=
  match line with
  | .other => (s, [])
  | .done =>
    if s.emittedCompleted then (s, [])
    else ({ s with emittedCompleted := true }, completedPair s)
  | .chunk value =>
    let su := updateMeta s value
    let cp := createdStep su
    let dp := deltaStep cp.1 value
    let fp := finishStep dp.1 value
    (fp.1, cp.2 ++ dp.2 ++ fp.2)

/-- The transcoder loop over the stream's complete lines. -/
def processLines (s : RespState) : List ChatLine → RespState × List RespEvent
  | [] => (s, [])
  | line :: rest =>
    let stepResult := stepLine s line
    let restResult := processLines stepResult.1 rest
    (restResult.1, stepResult.2 ++ restResult.2)

/-- The events emitted after upstream EOF. -/
def finishEvents (s : RespState) : List RespEvent :=
  if s.emittedCompleted then []
  else
    (if s.emittedCreated then []
     else [RespEvent.createdEvent s.responseId s.created s.model]) ++
      completedPair s

/-- stream_responses_from_chat_stream at event granularity: the events emitted
for a sequence of complete input lines, with `now` the clock at start. -/
def stream_responses_from_chat_stream (now : Nat) (lines : List ChatLine) :
    List RespEvent :=
  let result := processLines (initRespState now) lines
  result.2 ++ finishEvents result.1

/-- Whether the event is a response.output_text.delta. -/
def RespEvent.isDelta : RespEvent → Bool
  | .outputTextDelta _ _ => true
  | _ => false

/-- The delta field of a delta event. -/
def deltaOf : RespEvent → String
  | .outputTextDelta _ d => d
  | _ => ""

/-- Concatenation of a list of strings. -/
def strConcat (l : List String) : String :=
  ⟨(l.map String.data).flatten⟩

/-- A chunk that does not trigger the completed emission: finish_reason
absent or null. -/
def nullishFinish (value : Json) : Bool :=
  match chunkFinishReason value with
  | none => true
  | some j => j.isNull

/-- A well-formed chat-completion-chunk SSE input: at least one data chunk,
only the last of which may carry a non-null finish_reason, followed by the
terminal data: [DONE] line. -/
def WellFormedInput (lines : List ChatLine) : Prop :=
  ∃ chunks : List Json,
    lines = chunks.map ChatLine.chunk ++ [ChatLine.done] ∧
    chunks ≠ [] ∧
    ∀ j ∈ chunks.dropLast, nullishFinish j = true

theorem strAppend_empty (a : String) : a ++ "" = a := by
  apply strEq_of_data
  rw [strData_append]
  exact List.append_nil _

theorem strEmpty_append (a : String) : "" ++ a = a := by
  apply strEq_of_data
  rw [strData_append]
  rfl

theorem strAppend_assoc (a b c : String) : a ++ b ++ c = a ++ (b ++ c) := by
  apply strEq_of_data
  simp only [strData_append]
  exact List.append_assoc _ _ _

theorem strConcat_nil : strConcat [] = "" := rfl

theorem strConcat_single (d : String) : strConcat [d] = d := by
  apply strEq_of_data
  simp [strConcat]

theorem strConcat_append (a b : List String) :
    strConcat (a ++ b) = strConcat a ++ strConcat b := by
  apply strEq_of_data
  rw [strData_append]
  simp [strConcat]

theorem updateMeta_spec (s : RespState) (value : Json) :
    (updateMeta s value).emittedCreated = s.emittedCreated ∧
    (updateMeta s value).emittedCompleted = s.emittedCompleted ∧
    (updateMeta s value).fullText = s.fullText := by
  cases h1 : (value.get "id").bind Json.asStr <;>
    cases h2 : (value.get "model").bind Json.asStr <;>
      cases h3 : (value.get "created").bind Json.asU64 <;>
        simp [updateMeta, h1, h2, h3]

theorem createdStep_skip (s : RespState) (h : s.emittedCreated = true) :
    createdStep s = (s, []) := by
  simp [createdStep, h]

theorem createdStep_emit (s : RespState) (h : s.emittedCreated = false) :
    createdStep s = ({ s with emittedCreated := true },
      [RespEvent.createdEvent s.responseId s.created s.model]) := by
  simp [createdStep, h]

theorem deltaStep_spec (s : RespState) (value : Json) :
    (deltaStep s value).1.emittedCreated = s.emittedCreated ∧
    (deltaStep s value).1.emittedCompleted = s.emittedCompleted ∧
    (deltaStep s value).1.responseId = s.responseId ∧
    (deltaStep s value).1.created = s.created ∧
    (deltaStep s value).1.model = s.model ∧
    (deltaStep s value).1.fullText =
      s.fullText ++ strConcat ((deltaStep s value).2.map deltaOf) ∧
    ∀ e ∈ (deltaStep s value).2, e.isDelta = true := by
  cases hd : (chunkDeltaText value).isEmpty with
  | true => simp [deltaStep, hd, strConcat_nil, strAppend_empty]
  | false => simp [deltaStep, hd, strConcat_single, deltaOf, RespEvent.isDelta]

theorem finishStep_nullish (s : RespState) (value : Json)
    (hnf : nullishFinish value = true) :
    finishStep s value = (s, []) := by
  unfold nullishFinish at hnf
  cases hfr : chunkFinishReason value with
  | none => simp [finishStep, hfr]
  | some j =>
    rw [hfr] at hnf
    simp only [] at hnf
    simp [finishStep, hfr, hnf]

theorem finishStep_emit (s : RespState) (value : Json)
    (hnf : nullishFinish value = false) (h : s.emittedCompleted = false) :
    finishStep s value = ({ s with emittedCompleted := true }, completedPair s) := by
  unfold nullishFinish at hnf
  cases hfr : chunkFinishReason value with
  | none =>
    rw [hfr] at hnf
    simp at hnf
  | some j =>
    rw [hfr] at hnf
    simp only [] at hnf
    simp [finishStep, hfr, hnf, h]

theorem stepLine_done_pending (s : RespState) (h : s.emittedCompleted = false) :
    stepLine s ChatLine.done = ({ s with emittedCompleted := true }, completedPair s) := by
  simp [stepLine, h]

theorem stepLine_done_skip (s : RespState) (h : s.emittedCompleted = true) :
    stepLine s ChatLine.done = (s, []) := by
  simp [stepLine, h]

theorem stepLine_chunk_mid (s : RespState) (value : Json)
    (hc : s.emittedCreated = true) (hnf : nullishFinish value = true) :
    stepLine s (ChatLine.chunk value) =
      ((deltaStep (updateMeta s value) value).1,
        (deltaStep (updateMeta s value) value).2) := by
  have hcu : (updateMeta s value).emittedCreated = true := by
    rw [(updateMeta_spec s value).1]
    exact hc
  simp only [stepLine, createdStep_skip _ hcu]
  rw [finishStep_nullish _ _ hnf]
  simp

theorem stepLine_chunk_first (s : RespState) (value : Json)
    (hc : s.emittedCreated = false) (hnf : nullishFinish value = true) :
    stepLine s (ChatLine.chunk value) =
      ((deltaStep { updateMeta s value with emittedCreated := true } value).1,
        RespEvent.createdEvent (updateMeta s value).responseId
            (updateMeta s value).created (updateMeta s value).model ::
          (deltaStep { updateMeta s value with emittedCreated := true } value).2) := by
  have hcu : (updateMeta s value).emittedCreated = false := by
    rw [(updateMeta_spec s value).1]
    exact hc
  simp only [stepLine, createdStep_emit _ hcu]
  rw [finishStep_nullish _ _ hnf]
  simp

theorem stepLine_chunk_finish (s : RespState) (value : Json)
    (hc : s.emittedCreated = true) (hcmp : s.emittedCompleted = false)
    (hnf : nullishFinish value = false) :
    stepLine s (ChatLine.chunk value) =
      ({ (deltaStep (updateMeta s value) value).1 with emittedCompleted := true },
        (deltaStep (updateMeta s value) value).2 ++
          completedPair (deltaStep (updateMeta s value) value).1) := by
  have hcu : (updateMeta s value).emittedCreated = true := by
    rw [(updateMeta_spec s value).1]
    exact hc
  have hcm : (deltaStep (updateMeta s value) value).1.emittedCompleted = false := by
    rw [(deltaStep_spec _ _).2.1, (updateMeta_spec s value).2.1]
    exact hcmp
  simp only [stepLine, createdStep_skip _ hcu]
  rw [finishStep_emit _ _ hnf hcm]
  simp

theorem stepLine_chunk_first_finish (s : RespState) (value : Json)
    (hc : s.emittedCreated = false) (hcmp : s.emittedCompleted = false)
    (hnf : nullishFinish value = false) :
    stepLine s (ChatLine.chunk value) =
      ({ (deltaStep { updateMeta s value with emittedCreated := true } value).1 with
          emittedCompleted := true },
        RespEvent.createdEvent (updateMeta s value).responseId
            (updateMeta s value).created (updateMeta s value).model ::
          ((deltaStep { updateMeta s value with emittedCreated := true } value).2 ++
            completedPair
              (deltaStep { updateMeta s value with emittedCreated := true } value).1)) := by
  have hcu : (updateMeta s value).emittedCreated = false := by
    rw [(updateMeta_spec s value).1]
    exact hc
  have hcm : (deltaStep { updateMeta s value with emittedCreated := true } value).1.emittedCompleted
      = false := by
    rw [(deltaStep_spec _ _).2.1]
    show (updateMeta s value).emittedCompleted = false
    rw [(updateMeta_spec s value).2.1]
    exact hcmp
  simp only [stepLine, createdStep_emit _ hcu]
  rw [finishStep_emit _ _ hnf hcm]
  simp

theorem dropLast_tail_mem (value : Json) (rest : List Json) (j : Json)
    (hj : j ∈ rest.dropLast) : j ∈ (value :: rest).dropLast := by
  cases rest with
  | nil => simp at hj
  | cons v2 r2 => exact List.mem_cons_of_mem value hj

theorem processChunks_tail (chunks : List Json) : ∀ s : RespState,
    s.emittedCreated = true → s.emittedCompleted = false →
    (∀ j ∈ chunks.dropLast, nullishFinish j = true) →
    ∃ ds0 rid c m s2,
      processLines s (chunks.map ChatLine.chunk ++ [ChatLine.done]) =
        (s2, ds0 ++ [RespEvent.completedEvent rid c m
          (s.fullText ++ strConcat (ds0.map deltaOf)), RespEvent.doneMark]) ∧
      (∀ e ∈ ds0, e.isDelta = true) ∧
      s2.emittedCompleted = true := by
  induction chunks with
  | nil =>
    intro s hc hcmp _
    refine ⟨[], s.responseId, s.created, s.model,
      { s with emittedCompleted := true }, ?_, by simp, rfl⟩
    simp only [List.map_nil, List.nil_append, processLines]
    rw [stepLine_done_pending _ hcmp]
    simp [completedPair, strConcat_nil, strAppend_empty]
  | cons value rest ih =>
    intro s hc hcmp hdrop
    obtain ⟨hum1, hum2, hum3⟩ := updateMeta_spec s value
    cases hnf : nullishFinish value with
    | true =>
      have hstep := stepLine_chunk_mid s value hc hnf
      obtain ⟨hd1, hd2, hd3, hd4, hd5, hd6, hd7⟩ :=
        deltaStep_spec (updateMeta s value) value
      have hc2 : (deltaStep (updateMeta s value) value).1.emittedCreated = true := by
        rw [hd1, hum1]
        exact hc
      have hcm2 : (deltaStep (updateMeta s value) value).1.emittedCompleted = false := by
        rw [hd2, hum2]
        exact hcmp
      have hdrop2 : ∀ j ∈ rest.dropLast, nullishFinish j = true :=
        fun j hj => hdrop j (dropLast_tail_mem value rest j hj)
      obtain ⟨ds0, rid, c, m, s2, heq, hdelta, hs2⟩ := ih (deltaStep (updateMeta s value) value).1 hc2 hcm2 hdrop2
      refine ⟨(deltaStep (updateMeta s value) value).2 ++ ds0, rid, c, m, s2, ?_, ?_, hs2⟩
      · simp only [List.map_cons, List.cons_append, List.append_eq, processLines,
          hstep, heq]
        rw [hd6, hum3, strAppend_assoc, ← strConcat_append, ← List.map_append]
        simp
      · intro e he
        rcases List.mem_append.mp he with hl | hr
        · exact hd7 e hl
        · exact hdelta e hr
    | false =>
      cases rest with
      | cons v2 r2 =>
        exact absurd (hdrop value (List.mem_cons_self _ _)) (by simp [hnf])
      | nil =>
        have hstep := stepLine_chunk_finish s value hc hcmp hnf
        obtain ⟨hd1, hd2, hd3, hd4, hd5, hd6, hd7⟩ :=
          deltaStep_spec (updateMeta s value) value
        refine ⟨(deltaStep (updateMeta s value) value).2, (deltaStep (updateMeta s value) value).1.responseId, (deltaStep (updateMeta s value) value).1.created, (deltaStep (updateMeta s value) value).1.model,
          { (deltaStep (updateMeta s value) value).1 with emittedCompleted := true }, ?_, hd7, rfl⟩
        simp only [List.map_cons, List.map_nil, List.nil_append, List.cons_append,
          List.append_eq, processLines, hstep, completedPair]
        rw [stepLine_done_skip _ rfl]
        rw [hd6, hum3]
        simp

/-- C2: on every well-formed chunk stream the transcoder emits exactly one
response.created first, then only output-text deltas, then exactly one
response.completed immediately followed by the terminal marker; the completed
event's output text is the concatenation of all emitted deltas. -/
theorem c2_responses_stream_shape (now : Nat) (lines : List ChatLine)
    (h : WellFormedInput lines) :
    ∃ rid1 c1 m1 ds rid2 c2 m2 txt,
      stream_responses_from_chat_stream now lines =
        RespEvent.createdEvent rid1 c1 m1 ::
          (ds ++ [RespEvent.completedEvent rid2 c2 m2 txt, RespEvent.doneMark]) ∧
      (∀ e ∈ ds, e.isDelta = true) ∧
      txt = strConcat (ds.map deltaOf) := by
  obtain ⟨chunks, hlines, hne, hdrop⟩ := h
  subst hlines
  cases chunks with
  | nil => exact absurd rfl hne
  | cons value rest =>
    obtain ⟨hum1, hum2, hum3⟩ := updateMeta_spec (initRespState now) value
    cases hnf : nullishFinish value with
    | true =>
      have hstep := stepLine_chunk_first (initRespState now) value rfl hnf
      obtain ⟨hd1, hd2, hd3, hd4, hd5, hd6, hd7⟩ := deltaStep_spec { updateMeta (initRespState now) value with emittedCreated := true } value
      have hc2 : (deltaStep { updateMeta (initRespState now) value with emittedCreated := true } value).1.emittedCreated = true := by
        rw [hd1]
      have hcm2 : (deltaStep { updateMeta (initRespState now) value with emittedCreated := true } value).1.emittedCompleted = false := by
        rw [hd2]
        show (updateMeta (initRespState now) value).emittedCompleted = false
        rw [hum2]
        rfl
      have hdrop2 : ∀ j ∈ rest.dropLast, nullishFinish j = true :=
        fun j hj => hdrop j (dropLast_tail_mem value rest j hj)
      obtain ⟨ds0, rid, c, m, s2, heq, hdelta, hs2⟩ :=
        processChunks_tail rest (deltaStep { updateMeta (initRespState now) value with emittedCreated := true } value).1 hc2 hcm2 hdrop2
      have hfe : finishEvents s2 = [] := by
        simp [finishEvents, hs2]
      refine ⟨(updateMeta (initRespState now) value).responseId, (updateMeta (initRespState now) value).created, (updateMeta (initRespState now) value).model,
        (deltaStep { updateMeta (initRespState now) value with emittedCreated := true } value).2 ++ ds0, rid, c, m,
        (deltaStep { updateMeta (initRespState now) value with emittedCreated := true } value).1.fullText ++ strConcat (ds0.map deltaOf), ?_, ?_, ?_⟩
      · unfold stream_responses_from_chat_stream
        simp only [List.map_cons, List.cons_append, List.append_eq, processLines,
          hstep, heq, hfe]
        simp
      · intro e he
        rcases List.mem_append.mp he with hl | hr
        · exact hd7 e hl
        · exact hdelta e hr
      · rw [hd6]
        show ((updateMeta (initRespState now) value).fullText ++ strConcat ((deltaStep { updateMeta (initRespState now) value with emittedCreated := true } value).2.map deltaOf)) ++
          strConcat (ds0.map deltaOf) = _
        rw [hum3]
        show ("" ++ strConcat ((deltaStep { updateMeta (initRespState now) value with emittedCreated := true } value).2.map deltaOf)) ++ strConcat (ds0.map deltaOf) = _
        rw [strEmpty_append, ← strConcat_append, ← List.map_append]
    | false =>
      cases rest with
      | cons v2 r2 =>
        exact absurd (hdrop value (List.mem_cons_self _ _)) (by simp [hnf])
      | nil =>
        have hstep := stepLine_chunk_first_finish (initRespState now) value rfl rfl hnf
        obtain ⟨hd1, hd2, hd3, hd4, hd5, hd6, hd7⟩ := deltaStep_spec { updateMeta (initRespState now) value with emittedCreated := true } value
        have hfe : finishEvents { (deltaStep { updateMeta (initRespState now) value with emittedCreated := true } value).1 with emittedCompleted := true } = [] := by
          simp [finishEvents]
        refine ⟨(updateMeta (initRespState now) value).responseId, (updateMeta (initRespState now) value).created, (updateMeta (initRespState now) value).model,
          (deltaStep { updateMeta (initRespState now) value with emittedCreated := true } value).2, (deltaStep { updateMeta (initRespState now) value with emittedCreated := true } value).1.responseId, (deltaStep { updateMeta (initRespState now) value with emittedCreated := true } value).1.created, (deltaStep { updateMeta (initRespState now) value with emittedCreated := true } value).1.model,
          (deltaStep { updateMeta (initRespState now) value with emittedCreated := true } value).1.fullText, ?_, hd7, ?_⟩
        · unfold stream_responses_from_chat_stream
          simp only [List.map_cons, List.map_nil, List.nil_append, List.cons_append,
            List.append_eq, processLines, hstep, completedPair]
          rw [stepLine_done_skip _ rfl]
          simp only [hfe]
          simp
        · rw [hd6]
          show (updateMeta (initRespState now) value).fullText ++ strConcat ((deltaStep { updateMeta (initRespState now) value with emittedCreated := true } value).2.map deltaOf) = _
          rw [hum3]
          show "" ++ strConcat ((deltaStep { updateMeta (initRespState now) value with emittedCreated := true } value).2.map deltaOf) = _
          rw [strEmpty_append]

/-- C2 witness: a two-chunk stream whose second chunk carries a non-null
finish_reason, followed by the terminal line, is well formed and the theorem
applies to it. -/
theorem c2_responses_stream_shape_witness :
    WellFormedInput [ChatLine.chunk (Json.obj [("id", Json.str "c1"), ("model", Json.str "m"), ("choices", Json.arr [Json.obj [("delta", Json.obj [("content", Json.str "he")])]])]), ChatLine.chunk (Json.obj [("choices", Json.arr [Json.obj [("delta", Json.obj [("content", Json.str "llo")]), ("finish_reason", Json.str "stop")]])]), ChatLine.done] ∧
    ∃ rid1 c1 m1 ds rid2 c2 m2 txt,
      stream_responses_from_chat_stream 0
          [ChatLine.chunk (Json.obj [("id", Json.str "c1"), ("model", Json.str "m"), ("choices", Json.arr [Json.obj [("delta", Json.obj [("content", Json.str "he")])]])]), ChatLine.chunk (Json.obj [("choices", Json.arr [Json.obj [("delta", Json.obj [("content", Json.str "llo")]), ("finish_reason", Json.str "stop")]])]), ChatLine.done] =
        RespEvent.createdEvent rid1 c1 m1 ::
          (ds ++ [RespEvent.completedEvent rid2 c2 m2 txt, RespEvent.doneMark]) ∧
      (∀ e ∈ ds, e.isDelta = true) ∧
      txt = strConcat (ds.map deltaOf) := by
  have hwf : WellFormedInput [ChatLine.chunk (Json.obj [("id", Json.str "c1"), ("model", Json.str "m"), ("choices", Json.arr [Json.obj [("delta", Json.obj [("content", Json.str "he")])]])]), ChatLine.chunk (Json.obj [("choices", Json.arr [Json.obj [("delta", Json.obj [("content", Json.str "llo")]), ("finish_reason", Json.str "stop")]])]), ChatLine.done] := by
    refine ⟨[(Json.obj [("id", Json.str "c1"), ("model", Json.str "m"), ("choices", Json.arr [Json.obj [("delta", Json.obj [("content", Json.str "he")])]])]), (Json.obj [("choices", Json.arr [Json.obj [("delta", Json.obj [("content", Json.str "llo")]), ("finish_reason", Json.str "stop")]])])], rfl, by simp, ?_⟩
    intro j hj
    have hj1 : j = (Json.obj [("id", Json.str "c1"), ("model", Json.str "m"), ("choices", Json.arr [Json.obj [("delta", Json.obj [("content", Json.str "he")])]])]) := by simpa using hj
    subst hj1
    rfl
  exact ⟨hwf, c2_responses_stream_shape 0 _ hwf⟩

end Humlex
